import Mathlib

/-!
Shallow embedding of the movtv media-manager server (normalized-schema
variant, the final version the specification documents): the Mongo-backed
catalog store, the Telegram conversation state machine
(`handleConversationFlow`), the callback-payload parsing, and the read-only
REST endpoint `GET /api/series/:id`.

Modelling conventions:
* Mongo documents become Lean structures; the `_id` fields become explicit
  `String` fields (`mid`, `sid`, `eid`), and a fresh id for a saved document
  is passed in as a parameter of the step.
* `addedAt` timestamps are elided: they are set by schema defaults at save
  time and only read by the `/api/media` listing, which no claim touches.
* Persistence failures (store unreachable, write rejected) are modelled by
  a `persistOk : Bool` input; mongoose `required` validation rejects
  missing (`none`) and empty-string values, and the unique compound index
  on `(seriesId, seasonNumber, episodeNumber)` rejects duplicate episode
  triples inside `episodeSave`.
* Mongoose drops `undefined` query fields, so a query value of `none`
  matches every document (`optMatchesStr`/`optMatchesInt`).
* JS `parseInt` (radix auto-detect, leading-prefix parsing) is modelled by
  `parseIntJS`; JS number-to-string interpolation by `intToStr`; JS
  `String.prototype.split` with a one-character separator by `jsSplit`.
-/

/-- One document of the `Movie` collection (movieSchema). -/
structure Movie where
  mid : String
  name : String
  thumbnail : String
  streamingUrl : String
  addedBy : Int
  mtype : String
deriving Repr, DecidableEq

/-- One document of the `Series` collection (seriesSchema). -/
structure Series where
  sid : String
  name : String
  thumbnail : String
  addedBy : Int
  stype : String
deriving Repr, DecidableEq

/-- One document of the `Episode` collection (episodeSchema); `seriesId`
references a `Series` by id and `thumbnail` is optional. -/
structure Episode where
  eid : String
  seriesId : String
  seasonNumber : Int
  episodeNumber : Int
  title : String
  streamingUrl : String
  thumbnail : Option String
  addedBy : Int
deriving Repr, DecidableEq

/-- The three MongoDB collections. -/
structure Store where
  movies : List Movie := []
  series : List Series := []
  episodes : List Episode := []
deriving Repr, DecidableEq

def emptyStore : Store := {}

/-- A mongoose query value: `none` models a JS `undefined` field, which
mongoose strips from the query, so it matches every document. -/
def optMatchesStr (q : Option String) (v : String) : Bool :=
  match q with
  | none => true
  | some x => x == v

def optMatchesInt (q : Option Int) (v : Int) : Bool :=
  match q with
  | none => true
  | some x => x == v

/-- `Episode.findOne({ seriesId, seasonNumber })` used for the duplicate
season check. -/
def seasonInStore (sid : Option String) (n : Int) (st : Store) : Bool :=
  st.episodes.any (fun e => optMatchesStr sid e.seriesId && e.seasonNumber == n)

/-- `Episode.findOne({ seriesId, seasonNumber, episodeNumber })` used for the
duplicate episode check. -/
def episodeInStore (sid : Option String) (sn : Option Int) (n : Int) (st : Store) : Bool :=
  st.episodes.any (fun e =>
    optMatchesStr sid e.seriesId && optMatchesInt sn e.seasonNumber && e.episodeNumber == n)

/-- `Episode.countDocuments({ seriesId, seasonNumber })`. -/
def countEpisodes (sid : String) (sn : Int) (st : Store) : Nat :=
  (st.episodes.filter (fun e => e.seriesId == sid && e.seasonNumber == sn)).length

/-- The unique compound index `(seriesId, seasonNumber, episodeNumber)` of
episodeSchema: true when a document with the same triple already exists. -/
def episodeDup (e : Episode) (st : Store) : Bool :=
  st.episodes.any (fun e2 =>
    e2.seriesId == e.seriesId && e2.seasonNumber == e.seasonNumber &&
      e2.episodeNumber == e.episodeNumber)

/-- `new Movie(...).save()`: fails (`none`) when persistence fails or a
`required` string field is missing or empty. -/
def movieSave (ok : Bool) (m : Movie) (st : Store) : Option Store :=
  if ok && m.name != "" && m.thumbnail != "" && m.streamingUrl != "" then
    some { st with movies := st.movies ++ [m] }
  else none

/-- `new Series(...).save()`. -/
def seriesSave (ok : Bool) (s : Series) (st : Store) : Option Store :=
  if ok && s.name != "" && s.thumbnail != "" then
    some { st with series := st.series ++ [s] }
  else none

/-- `new Episode(...).save()`: in addition to `required` validation, the
unique compound index rejects a duplicate `(seriesId, seasonNumber,
episodeNumber)` triple. -/
def episodeSave (ok : Bool) (e : Episode) (st : Store) : Option Store :=
  if ok && e.title != "" && e.streamingUrl != "" && !episodeDup e st then
    some { st with episodes := st.episodes ++ [e] }
  else none

/-- Update the first list element satisfying `p` (ids are unique, so this is
the semantics of `findByIdAndUpdate`). -/
def updateFirst (p : α → Bool) (f : α → α) : List α → List α
  | [] => []
  | x :: xs => if p x then f x :: xs else x :: updateFirst p f xs

/-- Remove the first list element satisfying `p` (`findByIdAndDelete`). -/
def removeFirst (p : α → Bool) : List α → List α
  | [] => []
  | x :: xs => if p x then xs else x :: removeFirst p xs

/-- `Movie.findByIdAndUpdate(id, ...)`: an id of `none` (JS `undefined`)
matches no document; the call itself only fails on a persistence error. -/
def movieUpdate (ok : Bool) (mid : Option String) (f : Movie → Movie) (st : Store) :
    Option Store :=
  if ok then some { st with movies := updateFirst (fun m => mid == some m.mid) f st.movies }
  else none

/-- `Series.findByIdAndUpdate(id, ...)`. -/
def seriesUpdate (ok : Bool) (sid : Option String) (f : Series → Series) (st : Store) :
    Option Store :=
  if ok then some { st with series := updateFirst (fun s => sid == some s.sid) f st.series }
  else none

/-- `Episode.findByIdAndUpdate(id, ...)`. -/
def episodeUpdate (ok : Bool) (eid : Option String) (f : Episode → Episode) (st : Store) :
    Option Store :=
  if ok then some { st with episodes := updateFirst (fun e => eid == some e.eid) f st.episodes }
  else none

/-! ### JS primitives: parseInt, number-to-string, String.prototype.split -/

/-- JS `String.prototype.trim()`: remove leading and trailing
whitespace. -/
def jsTrim (s : String) : String :=
  String.mk (((s.toList.dropWhile Char.isWhitespace).reverse.dropWhile
    Char.isWhitespace).reverse)

def digitVal (c : Char) : Nat := c.toNat - 48

def natOfDigits10 (cs : List Char) : Nat :=
  cs.foldl (fun a c => a * 10 + digitVal c) 0

def hexDigitVal (c : Char) : Nat :=
  if c.isDigit then c.toNat - 48
  else if 'a' ≤ c && c ≤ 'f' then c.toNat - 87
  else c.toNat - 55

def isHexDigitJS (c : Char) : Bool :=
  c.isDigit || ('a' ≤ c && c ≤ 'f') || ('A' ≤ c && c ≤ 'F')

def natOfDigits16 (cs : List Char) : Nat :=
  cs.foldl (fun a c => a * 16 + hexDigitVal c) 0

/-- Read a maximal decimal-digit prefix; `none` when there is none
(JS `NaN`). -/
def parseDecPrefixJS (cs : List Char) : Option Nat :=
  let ds := cs.takeWhile (fun c => c.isDigit)
  if ds.isEmpty then none else some (natOfDigits10 ds)

def parseHexPrefixJS (cs : List Char) : Option Nat :=
  let ds := cs.takeWhile isHexDigitJS
  if ds.isEmpty then none else some (natOfDigits16 ds)

/-- Unsigned part of JS `parseInt` with no explicit radix: a `0x`/`0X`
prefix switches to hexadecimal, otherwise a maximal decimal prefix is
read. -/
def parseUnsignedJS (cs : List Char) : Option Nat :=
  match cs with
  | c0 :: c1 :: rest =>
      if c0 == '0' && (c1 == 'x' || c1 == 'X') then parseHexPrefixJS rest
      else parseDecPrefixJS (c0 :: c1 :: rest)
  | _ => parseDecPrefixJS cs

/-- JS `parseInt(s)` (radix auto-detected): skip leading whitespace,
optional sign, then parse a prefix; `none` models `NaN`. -/
def parseIntJS (s : String) : Option Int :=
  match s.toList.dropWhile (fun c => c.isWhitespace) with
  | [] => none
  | c :: rest =>
      if c == '-' then (parseUnsignedJS rest).map (fun n => -(n : Int))
      else if c == '+' then (parseUnsignedJS rest).map (fun n => (n : Int))
      else (parseUnsignedJS (c :: rest)).map (fun n => (n : Int))

/-- Decimal digits, least significant first, with an explicit fuel bound so
the definition is structurally recursive. -/
def digitsRevF : Nat → Nat → List Nat
  | _, 0 => []
  | 0, _ + 1 => []
  | f + 1, n + 1 => ((n + 1) % 10) :: digitsRevF f ((n + 1) / 10)

/-- Decimal digits of `n`, least significant first. -/
def digitsRev (n : Nat) : List Nat := digitsRevF n n

/-- JS number-to-string for a natural number. -/
def natToStr (n : Nat) : String :=
  if n == 0 then "0" else String.mk ((digitsRev n).reverse.map Nat.digitChar)

/-- JS number-to-string (template-literal interpolation) for an integer. -/
def intToStr (i : Int) : String :=
  if i < 0 then "-" ++ natToStr i.natAbs else natToStr i.toNat

/-- `${x}` for a possibly-undefined number: JS prints `undefined`. -/
def optIntStr (x : Option Int) : String :=
  match x with
  | some n => intToStr n
  | none => "undefined"

/-- `${x}` for a possibly-undefined string. -/
def optStr (x : Option String) : String :=
  match x with
  | some s => s
  | none => "undefined"

/-- Split a character list on a separator character; always returns at
least one (possibly empty) group, like JS `split`. -/
def splitCh (sep : Char) : List Char → List (List Char)
  | [] => [[]]
  | c :: cs =>
    if c == sep then [] :: splitCh sep cs
    else
      match splitCh sep cs with
      | [] => [[c]]
      | g :: gs => (c :: g) :: gs

/-- JS `s.split(sep)` for a one-character separator. -/
def jsSplit (s : String) (sep : Char) : List String :=
  (splitCh sep s.toList).map (fun cs => String.mk cs)

/-! ### Command router: callback-payload parsing -/

/-- The `extractId` helper: strip a known fixed prefix from
`data.startsWith(prefix)` / `data.substring(prefix.length)`, `null`
otherwise. -/
def extractId (data : String) (pre : String) : Option String :=
  if pre.toList.isPrefixOf data.toList then
    some (String.mk (data.toList.drop pre.toList.length))
  else none

/-- Construction of a season-selection payload:
`select_season_<seriesId>_<seasonNumber>` (edit_series_episodes_ branch). -/
def selectSeasonPayload (seriesId : String) (seasonNumber : Int) : String :=
  "select_season_" ++ seriesId ++ "_" ++ intToStr seasonNumber

/-- The `select_season_` branch of the callback router:
`parts = data.split('_'); seriesId = parts[2]; seasonNumber =
parseInt(parts[3])`.  A missing segment is JS `undefined`; `parseInt` of a
missing or non-numeric segment is `NaN` (`none`). -/
def parseSelectSeason (data : String) : Option String × Option Int :=
  let parts := jsSplit data '_'
  (parts[2]?, (parts[3]?).bind (fun t => parseIntJS t))

/-! ### Conversation state machine -/

/-- The state strings stored in the `userStates` map. -/
inductive ConvState where
  | addingMovieName
  | addingMovieThumbnail
  | addingMovieStreamingUrl
  | addingSeriesName
  | addingSeriesThumbnail
  | addingSeasonNumber
  | addingEpisodeNumber
  | addingEpisodeTitle
  | addingEpisodeUrl
  | editingMovieName
  | editingMovieThumbnail
  | editingMovieStreamingUrl
  | editingSeriesName
  | editingSeriesThumbnail
  | editingEpisodeTitle
  | editingEpisodeStreamingUrl
deriving Repr, DecidableEq

/-- The draft object stored in the `tempData` map: a JS object whose fields
may each be absent (`none`). -/
structure Draft where
  dtype : Option String := none
  name : Option String := none
  thumbnail : Option String := none
  streamingUrl : Option String := none
  seriesId : Option String := none
  seriesName : Option String := none
  seasonNumber : Option Int := none
  episodeNumber : Option Int := none
  title : Option String := none
  movieId : Option String := none
  episodeId : Option String := none
deriving Repr, DecidableEq

/-- `Object.keys(data).length === 0`. -/
def Draft.isEmpty (d : Draft) : Bool :=
  d.dtype.isNone && d.name.isNone && d.thumbnail.isNone && d.streamingUrl.isNone &&
    d.seriesId.isNone && d.seriesName.isNone && d.seasonNumber.isNone &&
    d.episodeNumber.isNone && d.title.isNone && d.movieId.isNone && d.episodeId.isNone

/-- One chat's entries in the two session maps: `state` is the `userStates`
entry, `draft` the `tempData` entry (each `none` when the map has no entry
for the chat). -/
structure Session where
  state : Option ConvState
  draft : Option Draft
deriving Repr, DecidableEq

/-- Result of handling one text message: the store, the chat's session
entries, and the outbound messages sent. -/
structure StepResult where
  store : Store
  session : Session
  messages : List String
deriving Repr, DecidableEq

/-- The post-switch write-back `if (data && Object.keys(data).length > 0)
tempData.set(chatId, data)` at the end of `handleConversationFlow`: a
non-empty local draft is written over whatever the `tempData` map holds. -/
def writeBack (d : Draft) (entry : Option Draft) : Option Draft :=
  if d.isEmpty then entry else some d

/-- The menu handler for `🎬 Add Movie`. -/
def startAddMovie : Session :=
  { state := some ConvState.addingMovieName, draft := some { dtype := some "movie" } }

/-- The menu handler for `📺 Add Series`. -/
def startAddSeries : Session :=
  { state := some ConvState.addingSeriesName, draft := some { dtype := some "series" } }

/-- `handleConversationFlow(chatId, text, userId)` of the normalized-schema
version: one text message processed against the chat's session.
`persistOk` models whether store writes succeed; `freshId` is the `_id`
Mongo would assign to a document created by this step.  Validation-failure
branches `return` before the write-back; all other branches fall through
to it. -/
def handleConversationFlow (persistOk : Bool) (freshId : String) (userId : Int)
    (sess : Session) (st : Store) (text : String) : StepResult :=
  let d0 := sess.draft.getD {}
  match sess.state with
  | some ConvState.addingMovieName =>
      let d := { d0 with name := some (jsTrim text) }
      { store := st,
        session := { state := some ConvState.addingMovieThumbnail,
                     draft := writeBack d sess.draft },
        messages := ["📸 Enter the movie thumbnail URL (image):"] }
  | some ConvState.addingMovieThumbnail =>
      let d := { d0 with thumbnail := some (jsTrim text) }
      { store := st,
        session := { state := some ConvState.addingMovieStreamingUrl,
                     draft := writeBack d sess.draft },
        messages := ["🔗 Enter the streaming URL (.mp4, .m3u8, etc.):"] }
  | some ConvState.addingMovieStreamingUrl =>
      let d := { d0 with streamingUrl := some (jsTrim text) }
      let saved :=
        match d.name, d.thumbnail with
        | some nm, some th =>
            movieSave persistOk
              { mid := freshId, name := nm, thumbnail := th,
                streamingUrl := (jsTrim text), addedBy := userId,
                mtype := d.dtype.getD "movie" } st
        | _, _ => none
      match saved with
      | some st2 =>
          { store := st2,
            session := { state := none, draft := writeBack d none },
            messages := ["✅ Movie \"" ++ optStr d.name ++ "\" added successfully!"] }
      | none =>
          { store := st,
            session := { state := none, draft := writeBack d none },
            messages := ["❌ Error adding movie. Please try again."] }
  | some ConvState.addingSeriesName =>
      let d := { d0 with name := some (jsTrim text) }
      { store := st,
        session := { state := some ConvState.addingSeriesThumbnail,
                     draft := writeBack d sess.draft },
        messages := ["📸 Enter the series thumbnail URL (image):"] }
  | some ConvState.addingSeriesThumbnail =>
      let d := { d0 with thumbnail := some (jsTrim text) }
      let saved :=
        match d.name with
        | some nm =>
            seriesSave persistOk
              { sid := freshId, name := nm, thumbnail := (jsTrim text),
                addedBy := userId, stype := d.dtype.getD "series" } st
        | none => none
      match saved with
      | some st2 =>
          let newEntry : Draft :=
            { dtype := some "series", seriesId := some freshId, seriesName := d.name }
          { store := st2,
            session := { state := some ConvState.addingSeasonNumber,
                         draft := writeBack d (some newEntry) },
            messages := ["✅ Series \"" ++ optStr d.name ++ "\" created! Now, 🔢 Enter season number:"] }
      | none =>
          { store := st,
            session := { state := sess.state, draft := writeBack d sess.draft },
            messages := ["❌ Error adding series. Please try again."] }
  | some ConvState.addingSeasonNumber =>
      match parseIntJS (jsTrim text) with
      | none =>
          { store := st, session := sess,
            messages := ["⚠️ Please enter a valid season number!"] }
      | some n =>
          if n ≤ 0 then
            { store := st, session := sess,
              messages := ["⚠️ Please enter a valid season number!"] }
          else if seasonInStore d0.seriesId n st then
            { store := st, session := sess,
              messages := ["⚠️ This season already exists. Please enter a different season number."] }
          else
            let d := { d0 with seasonNumber := some n }
            { store := st,
              session := { state := some ConvState.addingEpisodeNumber,
                           draft := writeBack d sess.draft },
              messages := ["📺 Adding to Series \"" ++ optStr d0.seriesName ++ "\", Season " ++
                intToStr n ++ ".\n\n🔢 Enter episode number:"] }
  | some ConvState.addingEpisodeNumber =>
      match parseIntJS (jsTrim text) with
      | none =>
          { store := st, session := sess,
            messages := ["⚠️ Please enter a valid episode number!"] }
      | some n =>
          if n ≤ 0 then
            { store := st, session := sess,
              messages := ["⚠️ Please enter a valid episode number!"] }
          else if episodeInStore d0.seriesId d0.seasonNumber n st then
            { store := st, session := sess,
              messages := ["⚠️ Episode " ++ intToStr n ++ " already exists in Season " ++
                optIntStr d0.seasonNumber ++ ". Choose a different number."] }
          else
            let d := { d0 with episodeNumber := some n }
            { store := st,
              session := { state := some ConvState.addingEpisodeTitle,
                           draft := writeBack d sess.draft },
              messages := ["📺 S" ++ optIntStr d0.seasonNumber ++ "E" ++ intToStr n ++
                " - Enter episode title:"] }
  | some ConvState.addingEpisodeTitle =>
      let d := { d0 with title := some (jsTrim text) }
      { store := st,
        session := { state := some ConvState.addingEpisodeUrl,
                     draft := writeBack d sess.draft },
        messages := ["🔗 Enter episode streaming URL:"] }
  | some ConvState.addingEpisodeUrl =>
      let d := { d0 with streamingUrl := some (jsTrim text) }
      let saved :=
        match d.seriesId, d.seasonNumber, d.episodeNumber, d.title with
        | some sid, some sn, some en, some ti =>
            episodeSave persistOk
              { eid := freshId, seriesId := sid, seasonNumber := sn,
                episodeNumber := en, title := ti, streamingUrl := (jsTrim text),
                thumbnail := none, addedBy := userId } st
        | _, _, _, _ => none
      match saved with
      | some st2 =>
          let cnt :=
            match d.seriesId, d.seasonNumber with
            | some sid, some sn => countEpisodes sid sn st2
            | _, _ => 0
          { store := st2,
            session := { state := none, draft := writeBack d none },
            messages := ["✅ Episode added! S" ++ optIntStr d.seasonNumber ++ "E" ++
              optIntStr d.episodeNumber ++ ": " ++ optStr d.title ++ "\n\n📊 Season " ++
              optIntStr d.seasonNumber ++ " now has " ++ intToStr cnt ++ " episode" ++
              (if cnt != 1 then "s" else "") ++ "\n\nWhat would you like to do next?"] }
      | none =>
          { store := st,
            session := { state := none, draft := writeBack d none },
            messages := ["❌ Error saving episode. Please try again."] }
  | some ConvState.editingMovieName =>
      match movieUpdate persistOk d0.movieId (fun m => { m with name := (jsTrim text) }) st with
      | some st2 =>
          { store := st2, session := { state := none, draft := writeBack d0 none },
            messages := ["✅ Movie name updated to \"" ++ (jsTrim text) ++ "\"!"] }
      | none =>
          { store := st, session := { state := none, draft := writeBack d0 none },
            messages := ["❌ Error updating movie name. Please try again."] }
  | some ConvState.editingMovieThumbnail =>
      match movieUpdate persistOk d0.movieId (fun m => { m with thumbnail := (jsTrim text) }) st with
      | some st2 =>
          { store := st2, session := { state := none, draft := writeBack d0 none },
            messages := ["✅ Movie thumbnail updated successfully!"] }
      | none =>
          { store := st, session := { state := none, draft := writeBack d0 none },
            messages := ["❌ Error updating movie thumbnail. Please try again."] }
  | some ConvState.editingMovieStreamingUrl =>
      match movieUpdate persistOk d0.movieId (fun m => { m with streamingUrl := (jsTrim text) }) st with
      | some st2 =>
          { store := st2, session := { state := none, draft := writeBack d0 none },
            messages := ["✅ Movie streaming URL updated successfully!"] }
      | none =>
          { store := st, session := { state := none, draft := writeBack d0 none },
            messages := ["❌ Error updating movie streaming URL. Please try again."] }
  | some ConvState.editingSeriesName =>
      match seriesUpdate persistOk d0.seriesId (fun s => { s with name := (jsTrim text) }) st with
      | some st2 =>
          { store := st2, session := { state := none, draft := writeBack d0 none },
            messages := ["✅ Series name updated to \"" ++ (jsTrim text) ++ "\"!"] }
      | none =>
          { store := st, session := { state := none, draft := writeBack d0 none },
            messages := ["❌ Error updating series name. Please try again."] }
  | some ConvState.editingSeriesThumbnail =>
      match seriesUpdate persistOk d0.seriesId (fun s => { s with thumbnail := (jsTrim text) }) st with
      | some st2 =>
          { store := st2, session := { state := none, draft := writeBack d0 none },
            messages := ["✅ Series thumbnail updated successfully!"] }
      | none =>
          { store := st, session := { state := none, draft := writeBack d0 none },
            messages := ["❌ Error updating series thumbnail. Please try again."] }
  | some ConvState.editingEpisodeTitle =>
      match episodeUpdate persistOk d0.episodeId (fun e => { e with title := (jsTrim text) }) st with
      | some st2 =>
          { store := st2, session := { state := none, draft := writeBack d0 none },
            messages := ["✅ Episode title updated successfully!"] }
      | none =>
          { store := st, session := { state := none, draft := writeBack d0 none },
            messages := ["❌ Error updating episode title. Please try again."] }
  | some ConvState.editingEpisodeStreamingUrl =>
      match episodeUpdate persistOk d0.episodeId (fun e => { e with streamingUrl := (jsTrim text) }) st with
      | some st2 =>
          { store := st2, session := { state := none, draft := writeBack d0 none },
            messages := ["✅ Episode streaming URL updated successfully!"] }
      | none =>
          { store := st, session := { state := none, draft := writeBack d0 none },
            messages := ["❌ Error updating episode streaming URL. Please try again."] }
  | none =>
      { store := st,
        session := { state := none, draft := writeBack d0 none },
        messages := ["❓ I didn\x27t understand that. Please use the menu buttons or type /start to restart."] }

/-- The `delete_series_` branch of the callback router:
`Series.findByIdAndDelete(seriesId)` followed, on success, by
`Episode.deleteMany({ seriesId })`. -/
def deleteSeriesCallback (st : Store) (seriesId : String) : Store × List String :=
  match st.series.find? (fun s => s.sid == seriesId) with
  | some s =>
      ({ st with
          series := removeFirst (fun x => x.sid == seriesId) st.series,
          episodes := st.episodes.filter (fun e => !(e.seriesId == seriesId)) },
       ["✅ Series \"" ++ s.name ++ "\" and all its episodes deleted successfully!"])
  | none => (st, ["❌ Series not found."])

/-! ### REST facade: GET /api/series/:id -/

/-- The Mongo sort key `{ seasonNumber: 1, episodeNumber: 1 }`: ascending
season number, then ascending episode number. -/
def epLeProp (a b : Episode) : Prop :=
  a.seasonNumber < b.seasonNumber ∨
    (a.seasonNumber = b.seasonNumber ∧ a.episodeNumber ≤ b.episodeNumber)

instance decEpLeProp : DecidableRel epLeProp := fun a b =>
  inferInstanceAs (Decidable (a.seasonNumber < b.seasonNumber ∨
    (a.seasonNumber = b.seasonNumber ∧ a.episodeNumber ≤ b.episodeNumber)))

instance totalEpLeProp : IsTotal Episode epLeProp :=
  ⟨by intro a b; unfold epLeProp; omega⟩

instance transEpLeProp : IsTrans Episode epLeProp :=
  ⟨by intro a b c; unfold epLeProp; omega⟩

/-- The episode sort performed by the endpoint. -/
def sortEpisodes (l : List Episode) : List Episode :=
  List.insertionSort epLeProp l

/-- The JSON body `{ ...series._doc, episodes }`. -/
structure SeriesDetail where
  series : Series
  episodes : List Episode
deriving Repr, DecidableEq

/-- Response of `GET /api/series/:id`: `ok` is the 200 JSON body,
`notFound` the 404 error body. -/
inductive ApiSeriesResult where
  | ok (d : SeriesDetail)
  | notFound
deriving Repr, DecidableEq

/-- The handler: `Series.findById`, 404 when missing, otherwise
`Episode.find({ seriesId: series._id }).sort({ seasonNumber: 1,
episodeNumber: 1 })` joined into the response. -/
def getSeriesById (st : Store) (sid : String) : ApiSeriesResult :=
  match st.series.find? (fun s => s.sid == sid) with
  | none => ApiSeriesResult.notFound
  | some s =>
      ApiSeriesResult.ok
        { series := s,
          episodes := sortEpisodes (st.episodes.filter (fun e => e.seriesId == s.sid)) }

/-- The same handler in request-step form: it performs only reads, so the
store it leaves behind is the one it received. -/
def apiSeriesByIdStep (st : Store) (sid : String) : ApiSeriesResult × Store :=
  (getSeriesById st sid, st)

/-! ### Derived notions used by the statements -/

/-- Run a sequence of text messages through the conversation state machine
(each paired with the fresh id Mongo would assign on that step). -/
def runFlow (uid : Int) : Session → Store → List (String × String) → StepResult
  | sess, st, [] => { store := st, session := sess, messages := [] }
  | sess, st, (fid, t) :: rest =>
      let r := handleConversationFlow true fid uid sess st t
      runFlow uid r.session r.store rest

/-- The identifying triple of the unique compound index on episodeSchema. -/
def epKey (e : Episode) : String × Int × Int :=
  (e.seriesId, e.seasonNumber, e.episodeNumber)

/-- `(seriesId, seasonNumber, episodeNumber)` identifies at most one
Episode document. -/
def uniqueEpisodeKeys (st : Store) : Prop :=
  (st.episodes.map epKey).Nodup

/-- Value of a least-significant-first digit list. -/
def ofDigitsRev : List Nat → Nat
  | [] => 0
  | d :: ds => d + 10 * ofDigitsRev ds

/-! ## Theorems -/

/-- `updateFirst` does not change the image of the list under `key` when
the update function preserves `key`. -/
theorem updateFirst_map_key {α β : Type} (key : α → β) (p : α → Bool) (f : α → α)
    (hf : ∀ x, key (f x) = key x) :
    ∀ l : List α, (updateFirst p f l).map key = l.map key
  | [] => rfl
  | x :: xs => by
    unfold updateFirst
    split
    · simp [hf]
    · simp [updateFirst_map_key key p f hf xs]

/-- A successful `episodeSave` preserves uniqueness of the identifying
triples: the unique compound index has rejected any duplicate. -/
theorem episodeSave_keys {ok : Bool} {e : Episode} {st st2 : Store}
    (h : episodeSave ok e st = some st2) (hu : uniqueEpisodeKeys st) :
    uniqueEpisodeKeys st2 := by
  unfold episodeSave at h
  split at h
  · rename_i hc
    cases h
    have hdup : episodeDup e st = false := by
      rcases Bool.and_eq_true_iff.mp hc with ⟨h1, h2⟩
      simpa using h2
    have hnotin : epKey e ∉ st.episodes.map epKey := by
      intro hmem
      obtain ⟨x, hx, hkx⟩ := List.mem_map.mp hmem
      have hfalse := List.any_eq_false.mp hdup x hx
      simp only [epKey, Prod.mk.injEq] at hkx
      simp [hkx.1, hkx.2.1, hkx.2.2] at hfalse
    unfold uniqueEpisodeKeys at hu ⊢
    simp only [List.map_append, List.map_cons, List.map_nil]
    rw [List.nodup_append]
    exact ⟨hu, List.nodup_singleton _, by simpa [List.disjoint_singleton] using hnotin⟩
  · exact absurd h (by simp)

/-- C2: the triple `(seriesId, seasonNumber, episodeNumber)` identifies at
most one Episode record — the property is preserved by every conversation
step, because the only episode insertion goes through the unique compound
index — and, in the `adding_episode_number` state, a duplicate episode
number for the session's series and season is rejected with the store and
the session unchanged. -/
theorem C2_episode_triple_unique (ok : Bool) (fid : String) (uid : Int)
    (sess : Session) (st : Store) (t : String)
    (hu : uniqueEpisodeKeys st) :
    uniqueEpisodeKeys (handleConversationFlow ok fid uid sess st t).store ∧
    (∀ sid sn n,
      sess.state = some ConvState.addingEpisodeNumber →
      (sess.draft.getD {}).seriesId = some sid →
      (sess.draft.getD {}).seasonNumber = some sn →
      parseIntJS (jsTrim t) = some n → 0 < n →
      episodeInStore (some sid) (some sn) n st = true →
      (handleConversationFlow ok fid uid sess st t).store = st ∧
      (handleConversationFlow ok fid uid sess st t).session = sess) := by
  constructor
  · rcases hss : sess.state with _ | s
    · simp only [handleConversationFlow, hss]
      exact hu
    · cases s
      case addingMovieName => simp only [handleConversationFlow, hss]; exact hu
      case addingMovieThumbnail => simp only [handleConversationFlow, hss]; exact hu
      case addingSeriesName => simp only [handleConversationFlow, hss]; exact hu
      case addingEpisodeTitle => simp only [handleConversationFlow, hss]; exact hu
      case addingSeasonNumber =>
        simp only [handleConversationFlow, hss]
        split
        · exact hu
        · split
          · exact hu
          · split
            · exact hu
            · exact hu
      case addingEpisodeNumber =>
        simp only [handleConversationFlow, hss]
        split
        · exact hu
        · split
          · exact hu
          · split
            · exact hu
            · exact hu
      case addingMovieStreamingUrl =>
        simp only [handleConversationFlow, hss]
        split
        · rename_i st2 heq
          split at heq
          · unfold movieSave at heq
            split at heq
            · cases heq
              exact hu
            · exact absurd heq (by simp)
          · exact absurd heq (by simp)
        · exact hu
      case addingSeriesThumbnail =>
        simp only [handleConversationFlow, hss]
        split
        · rename_i st2 heq
          split at heq
          · unfold seriesSave at heq
            split at heq
            · cases heq
              exact hu
            · exact absurd heq (by simp)
          · exact absurd heq (by simp)
        · exact hu
      case addingEpisodeUrl =>
        simp only [handleConversationFlow, hss]
        split
        · rename_i st2 heq
          split at heq
          · exact episodeSave_keys heq hu
          · exact absurd heq (by simp)
        · exact hu
      all_goals
        simp only [handleConversationFlow, hss]
        split
        · rename_i st2 heq
          first
          | · unfold movieUpdate at heq
              split at heq
              · cases heq
                exact hu
              · exact absurd heq (by simp)
          | · unfold seriesUpdate at heq
              split at heq
              · cases heq
                exact hu
              · exact absurd heq (by simp)
          | · unfold episodeUpdate at heq
              split at heq
              · cases heq
                unfold uniqueEpisodeKeys at hu ⊢
                rw [updateFirst_map_key epKey _ _ (by intro x; rfl)]
                exact hu
              · exact absurd heq (by simp)
        · exact hu
  · intro sid sn n hstate hsid hsn hn hpos hdup
    simp only [handleConversationFlow, hstate, hn]
    rw [if_neg (by omega), hsid, hsn, hdup]
    simp

/-- C2 witness: with episode (s1, season 1, episode 1) stored, submitting
episode number `1` again for that series and season is rejected and the
unique-key invariant is preserved. -/
theorem C2_episode_triple_unique_witness :
    uniqueEpisodeKeys
      (Store.mk [] [] [Episode.mk "e1" "s1" 1 1 "t" "u" none 7]) ∧
    uniqueEpisodeKeys
      ((handleConversationFlow true "f1" 7
        (Session.mk (some ConvState.addingEpisodeNumber)
          (some { dtype := some "series", seriesId := some "s1", seasonNumber := some 1 }))
        (Store.mk [] [] [Episode.mk "e1" "s1" 1 1 "t" "u" none 7]) "1").store) ∧
    (handleConversationFlow true "f1" 7
        (Session.mk (some ConvState.addingEpisodeNumber)
          (some { dtype := some "series", seriesId := some "s1", seasonNumber := some 1 }))
        (Store.mk [] [] [Episode.mk "e1" "s1" 1 1 "t" "u" none 7]) "1").store =
      Store.mk [] [] [Episode.mk "e1" "s1" 1 1 "t" "u" none 7] ∧
    (handleConversationFlow true "f1" 7
        (Session.mk (some ConvState.addingEpisodeNumber)
          (some { dtype := some "series", seriesId := some "s1", seasonNumber := some 1 }))
        (Store.mk [] [] [Episode.mk "e1" "s1" 1 1 "t" "u" none 7]) "1").session =
      Session.mk (some ConvState.addingEpisodeNumber)
        (some { dtype := some "series", seriesId := some "s1", seasonNumber := some 1 }) :=
  ⟨by unfold uniqueEpisodeKeys; decide,
    (C2_episode_triple_unique true "f1" 7
      (Session.mk (some ConvState.addingEpisodeNumber)
        (some { dtype := some "series", seriesId := some "s1", seasonNumber := some 1 }))
      (Store.mk [] [] [Episode.mk "e1" "s1" 1 1 "t" "u" none 7]) "1"
        (by unfold uniqueEpisodeKeys; decide)).1,
    ((C2_episode_triple_unique true "f1" 7
      (Session.mk (some ConvState.addingEpisodeNumber)
        (some { dtype := some "series", seriesId := some "s1", seasonNumber := some 1 }))
      (Store.mk [] [] [Episode.mk "e1" "s1" 1 1 "t" "u" none 7]) "1"
        (by unfold uniqueEpisodeKeys; decide)).2
        "s1" 1 1 rfl rfl rfl (by decide) (by decide) (by decide)).1,
    ((C2_episode_triple_unique true "f1" 7
      (Session.mk (some ConvState.addingEpisodeNumber)
        (some { dtype := some "series", seriesId := some "s1", seasonNumber := some 1 }))
      (Store.mk [] [] [Episode.mk "e1" "s1" 1 1 "t" "u" none 7]) "1"
        (by unfold uniqueEpisodeKeys; decide)).2
        "s1" 1 1 rfl rfl rfl (by decide) (by decide) (by decide)).2⟩

/-- An element of the original list that does not satisfy `p` survives
`removeFirst p`. -/
theorem mem_removeFirst_of_mem {α : Type} {p : α → Bool} {x : α} :
    ∀ {l : List α}, x ∈ l → p x = false → x ∈ removeFirst p l
  | a :: tl, hx, hpx => by
    unfold removeFirst
    split
    · rename_i hpa
      rcases List.mem_cons.mp hx with rfl | h
      · rw [hpx] at hpa; exact absurd hpa (by simp)
      · exact h
    · rcases List.mem_cons.mp hx with rfl | h
      · exact List.mem_cons_self _ _
      · exact List.mem_cons_of_mem _ (mem_removeFirst_of_mem h hpx)

/-- When the keys of a list are pairwise distinct, removing the first
element with key `k` leaves no element with key `k`. -/
theorem removeFirst_key_not_mem {α β : Type} [DecidableEq β] (key : α → β) (k : β) :
    ∀ {l : List α}, (l.map key).Nodup →
      ∀ x ∈ removeFirst (fun y => key y == k) l, key x ≠ k
  | [], _, x, hx => absurd hx (by simp [removeFirst])
  | a :: tl, hnd, x, hx => by
    rw [List.map_cons, List.nodup_cons] at hnd
    unfold removeFirst at hx
    split at hx
    · rename_i hpa
      have hka : key a = k := by simpa using hpa
      intro hkx
      exact hnd.1 (hka ▸ hkx ▸ List.mem_map_of_mem key hx)
    · rename_i hpa
      have hka : ¬key a = k := by simpa using hpa
      rcases List.mem_cons.mp hx with rfl | h
      · exact hka
      · exact removeFirst_key_not_mem key k hnd.2 x h

/-- C7: when the series exists (ids being unique as Mongo `_id`s are), the
`delete_series` callback removes its Series record and every Episode record
whose `seriesId` references it; the Movie collection is untouched and the
episodes of other series survive. -/
theorem C7_delete_series_cascades (st : Store) (sid : String) (s : Series)
    (hfind : st.series.find? (fun x => x.sid == sid) = some s)
    (hnodup : (st.series.map Series.sid).Nodup) :
    (deleteSeriesCallback st sid).1.movies = st.movies ∧
    (deleteSeriesCallback st sid).1.episodes =
      st.episodes.filter (fun e => !(e.seriesId == sid)) ∧
    (∀ e ∈ (deleteSeriesCallback st sid).1.episodes, e.seriesId ≠ sid) ∧
    (∀ e ∈ st.episodes, e.seriesId ≠ sid → e ∈ (deleteSeriesCallback st sid).1.episodes) ∧
    (∀ x ∈ (deleteSeriesCallback st sid).1.series, x.sid ≠ sid) ∧
    (∀ x ∈ st.series, x.sid ≠ sid → x ∈ (deleteSeriesCallback st sid).1.series) := by
  unfold deleteSeriesCallback
  rw [hfind]
  refine ⟨rfl, rfl, ?_, ?_, ?_, ?_⟩
  · intro e he
    simp only [List.mem_filter] at he
    simpa using he.2
  · intro e he hne
    simp only [List.mem_filter]
    exact ⟨he, by simpa using hne⟩
  · intro x hx
    exact removeFirst_key_not_mem Series.sid sid hnodup x hx
  · intro x hx hne
    exact mem_removeFirst_of_mem hx (by simpa using hne)

/-- C7 witness: deleting series s1 from a concrete store removes it and its
episode; the movie, series s2 and s2's episode survive. -/
theorem C7_delete_series_cascades_witness :
    ((Store.mk [Movie.mk "m" "n" "t" "u" 1 "movie"]
        [Series.mk "s1" "A" "t" 1 "series", Series.mk "s2" "B" "t" 1 "series"]
        [Episode.mk "e1" "s1" 1 1 "t" "u" none 7, Episode.mk "e2" "s2" 1 1 "t" "u" none 7]).series.find?
        (fun x => x.sid == "s1") = some (Series.mk "s1" "A" "t" 1 "series") ∧
      ((Store.mk [Movie.mk "m" "n" "t" "u" 1 "movie"]
        [Series.mk "s1" "A" "t" 1 "series", Series.mk "s2" "B" "t" 1 "series"]
        [Episode.mk "e1" "s1" 1 1 "t" "u" none 7, Episode.mk "e2" "s2" 1 1 "t" "u" none 7]).series.map
        Series.sid).Nodup) ∧
    ((deleteSeriesCallback
        (Store.mk [Movie.mk "m" "n" "t" "u" 1 "movie"]
          [Series.mk "s1" "A" "t" 1 "series", Series.mk "s2" "B" "t" 1 "series"]
          [Episode.mk "e1" "s1" 1 1 "t" "u" none 7, Episode.mk "e2" "s2" 1 1 "t" "u" none 7])
        "s1").1.movies =
        (Store.mk [Movie.mk "m" "n" "t" "u" 1 "movie"]
          [Series.mk "s1" "A" "t" 1 "series", Series.mk "s2" "B" "t" 1 "series"]
          [Episode.mk "e1" "s1" 1 1 "t" "u" none 7, Episode.mk "e2" "s2" 1 1 "t" "u" none 7]).movies ∧
      (∀ x ∈ (deleteSeriesCallback
        (Store.mk [Movie.mk "m" "n" "t" "u" 1 "movie"]
          [Series.mk "s1" "A" "t" 1 "series", Series.mk "s2" "B" "t" 1 "series"]
          [Episode.mk "e1" "s1" 1 1 "t" "u" none 7, Episode.mk "e2" "s2" 1 1 "t" "u" none 7])
        "s1").1.series, x.sid ≠ "s1") ∧
      (∀ e ∈ (deleteSeriesCallback
        (Store.mk [Movie.mk "m" "n" "t" "u" 1 "movie"]
          [Series.mk "s1" "A" "t" 1 "series", Series.mk "s2" "B" "t" 1 "series"]
          [Episode.mk "e1" "s1" 1 1 "t" "u" none 7, Episode.mk "e2" "s2" 1 1 "t" "u" none 7])
        "s1").1.episodes, e.seriesId ≠ "s1")) :=
  ⟨⟨by decide, by decide⟩,
    (C7_delete_series_cascades
      (Store.mk [Movie.mk "m" "n" "t" "u" 1 "movie"]
        [Series.mk "s1" "A" "t" 1 "series", Series.mk "s2" "B" "t" 1 "series"]
        [Episode.mk "e1" "s1" 1 1 "t" "u" none 7, Episode.mk "e2" "s2" 1 1 "t" "u" none 7])
      "s1" (Series.mk "s1" "A" "t" 1 "series") (by decide) (by decide)).1,
    (C7_delete_series_cascades
      (Store.mk [Movie.mk "m" "n" "t" "u" 1 "movie"]
        [Series.mk "s1" "A" "t" 1 "series", Series.mk "s2" "B" "t" 1 "series"]
        [Episode.mk "e1" "s1" 1 1 "t" "u" none 7, Episode.mk "e2" "s2" 1 1 "t" "u" none 7])
      "s1" (Series.mk "s1" "A" "t" 1 "series") (by decide) (by decide)).2.2.2.2.1,
    (C7_delete_series_cascades
      (Store.mk [Movie.mk "m" "n" "t" "u" 1 "movie"]
        [Series.mk "s1" "A" "t" 1 "series", Series.mk "s2" "B" "t" 1 "series"]
        [Episode.mk "e1" "s1" 1 1 "t" "u" none 7, Episode.mk "e2" "s2" 1 1 "t" "u" none 7])
      "s1" (Series.mk "s1" "A" "t" 1 "series") (by decide) (by decide)).2.2.1⟩

/-- C8: re-fetching `GET /api/series/:id` twice with no intervening writes
yields identical JSON responses: the handler performs no store mutation, so
the second request runs against the same store and produces the same
response. -/
theorem C8_series_fetch_idempotent (st : Store) (sid : String) :
    (apiSeriesByIdStep st sid).2 = st ∧
    (apiSeriesByIdStep (apiSeriesByIdStep st sid).2 sid).1 =
      (apiSeriesByIdStep st sid).1 :=
  ⟨rfl, rfl⟩

/-- C9: a text message arriving while no conversation state is active for
the chat falls into the `default` branch: the bot replies with the generic
help message (it is neither dropped nor does the handler fail) and the
store is untouched. -/
theorem C9_no_session_help_message (ok : Bool) (fid : String) (uid : Int)
    (sess : Session) (st : Store) (t : String)
    (hnone : sess.state = none) :
    (handleConversationFlow ok fid uid sess st t).messages =
      ["❓ I didn\x27t understand that. Please use the menu buttons or type /start to restart."] ∧
    (handleConversationFlow ok fid uid sess st t).store = st := by
  simp [handleConversationFlow, hnone]

/-- C9 witness: concrete unrecognized input with no active session. -/
theorem C9_no_session_help_message_witness :
    (Session.mk none none).state = none ∧
    ((handleConversationFlow true "f1" 7 (Session.mk none none) emptyStore "hello").messages =
      ["❓ I didn\x27t understand that. Please use the menu buttons or type /start to restart."] ∧
     (handleConversationFlow true "f1" 7 (Session.mk none none) emptyStore "hello").store =
       emptyStore) :=
  ⟨rfl, C9_no_session_help_message true "f1" 7 (Session.mk none none) emptyStore "hello" rfl⟩

/-- C5 (code evaluation at the failing input): when the movie-commit save
fails, the failure message is sent and the `userStates` entry is deleted,
but the post-switch write-back re-inserts the draft into `tempData`: the
draft is *not* removed, contradicting the claim that both session entries
are cleared. -/
theorem C5_failed_commit_draft_survives :
    (handleConversationFlow false "m1" 7
      { state := some ConvState.addingMovieStreamingUrl,
        draft := some { dtype := some "movie", name := some "Inception",
                        thumbnail := some "http://img/1.jpg" } }
      emptyStore "http://stream/1.m3u8").messages =
        ["❌ Error adding movie. Please try again."] ∧
    (handleConversationFlow false "m1" 7
      { state := some ConvState.addingMovieStreamingUrl,
        draft := some { dtype := some "movie", name := some "Inception",
                        thumbnail := some "http://img/1.jpg" } }
      emptyStore "http://stream/1.m3u8").store = emptyStore ∧
    (handleConversationFlow false "m1" 7
      { state := some ConvState.addingMovieStreamingUrl,
        draft := some { dtype := some "movie", name := some "Inception",
                        thumbnail := some "http://img/1.jpg" } }
      emptyStore "http://stream/1.m3u8").session.state = none ∧
    (handleConversationFlow false "m1" 7
      { state := some ConvState.addingMovieStreamingUrl,
        draft := some { dtype := some "movie", name := some "Inception",
                        thumbnail := some "http://img/1.jpg" } }
      emptyStore "http://stream/1.m3u8").session.draft =
      some { dtype := some "movie", name := some "Inception",
             thumbnail := some "http://img/1.jpg",
             streamingUrl := some "http://stream/1.m3u8" } := by
  decide

/-- C1: submitting three non-empty texts through the add-movie states
(`adding_movie_name`, `adding_movie_thumbnail`, `adding_movie_streaming_url`)
appends exactly one Movie record whose name, thumbnail and streamingUrl are
the trimmed inputs in that order and whose `addedBy` is the submitting
user's id; the conversation state is cleared afterwards. -/
theorem C1_movie_flow_creates_one_movie (st : Store) (uid : Int)
    (id1 id2 id3 : String) (t1 t2 t3 : String)
    (h1 : jsTrim t1 ≠ "") (h2 : jsTrim t2 ≠ "") (h3 : jsTrim t3 ≠ "") :
    (runFlow uid startAddMovie st [(id1, t1), (id2, t2), (id3, t3)]).store =
      { st with movies := st.movies ++
          [{ mid := id3, name := jsTrim t1, thumbnail := jsTrim t2,
             streamingUrl := jsTrim t3, addedBy := uid, mtype := "movie" }] } ∧
    (runFlow uid startAddMovie st [(id1, t1), (id2, t2), (id3, t3)]).session.state = none := by
  simp [runFlow, handleConversationFlow, startAddMovie, writeBack, Draft.isEmpty, movieSave,
    h1, h2, h3]

/-- C1 witness: the spec scenario `"Inception"`, `"http://img/1.jpg"`,
`"http://stream/1.m3u8"` yields exactly that stored Movie. -/
theorem C1_movie_flow_creates_one_movie_witness :
    (jsTrim "Inception" ≠ "" ∧ jsTrim "http://img/1.jpg" ≠ "" ∧
      jsTrim "http://stream/1.m3u8" ≠ "") ∧
    ((runFlow 7 startAddMovie emptyStore
        [("m1", "Inception"), ("m2", "http://img/1.jpg"), ("m3", "http://stream/1.m3u8")]).store =
      { emptyStore with movies := emptyStore.movies ++
          [{ mid := "m3", name := jsTrim "Inception", thumbnail := jsTrim "http://img/1.jpg",
             streamingUrl := jsTrim "http://stream/1.m3u8", addedBy := 7, mtype := "movie" }] } ∧
     (runFlow 7 startAddMovie emptyStore
        [("m1", "Inception"), ("m2", "http://img/1.jpg"), ("m3", "http://stream/1.m3u8")]).session.state =
       none) :=
  ⟨⟨by decide, by decide, by decide⟩,
    C1_movie_flow_creates_one_movie emptyStore 7 "m1" "m2" "m3"
      "Inception" "http://img/1.jpg" "http://stream/1.m3u8"
      (by decide) (by decide) (by decide)⟩

/-- C3: in the `adding_season_number` state, a season number that already
exists for the session's series (some episode of that series carries it) is
rejected with a re-prompt: the store is unchanged and the session (state
and draft) is exactly what it was. -/
theorem C3_duplicate_season_rejected (ok : Bool) (fid : String) (uid : Int)
    (sess : Session) (st : Store) (t : String) (sid : String) (n : Int)
    (hstate : sess.state = some ConvState.addingSeasonNumber)
    (hsid : (sess.draft.getD {}).seriesId = some sid)
    (hn : parseIntJS (jsTrim t) = some n) (hpos : 0 < n)
    (hdup : seasonInStore (some sid) n st = true) :
    handleConversationFlow ok fid uid sess st t =
      { store := st, session := sess,
        messages := ["⚠️ This season already exists. Please enter a different season number."] } := by
  simp only [handleConversationFlow, hstate, hn]
  rw [if_neg (by omega), hsid, hdup]
  simp

/-- C3 witness: series `s1` already has season 2 (episode e1 carries it);
submitting `2` again re-prompts and changes nothing. -/
theorem C3_duplicate_season_rejected_witness :
    ((Session.mk (some ConvState.addingSeasonNumber)
        (some { dtype := some "series", seriesId := some "s1", seriesName := some "X" })).state =
        some ConvState.addingSeasonNumber ∧
      parseIntJS (jsTrim "2") = some 2) ∧
    handleConversationFlow true "f1" 7
      (Session.mk (some ConvState.addingSeasonNumber)
        (some { dtype := some "series", seriesId := some "s1", seriesName := some "X" }))
      { episodes := [{ eid := "e1", seriesId := "s1", seasonNumber := 2, episodeNumber := 1,
                       title := "t", streamingUrl := "u", thumbnail := none, addedBy := 7 }] }
      "2" =
      { store := { episodes := [{ eid := "e1", seriesId := "s1", seasonNumber := 2,
                                  episodeNumber := 1, title := "t", streamingUrl := "u",
                                  thumbnail := none, addedBy := 7 }] },
        session := Session.mk (some ConvState.addingSeasonNumber)
          (some { dtype := some "series", seriesId := some "s1", seriesName := some "X" }),
        messages := ["⚠️ This season already exists. Please enter a different season number."] } :=
  ⟨⟨rfl, by decide⟩,
    C3_duplicate_season_rejected true "f1" 7 _ _ "2" "s1" 2 rfl rfl (by decide) (by decide)
      (by decide)⟩

/-- C6: in the season-number and episode-number states — the same states no
matter which flow (new series or add-to-existing) reached them — an input
that does not parse as a number, or parses to zero or a negative number, is
rejected: the store is unchanged, no draft field is assigned and the state
entry is untouched (the session is exactly what it was), and a validation
warning is the reply. -/
theorem C6_nonpositive_number_rejected (ok : Bool) (fid : String) (uid : Int)
    (sess : Session) (st : Store) (t : String)
    (hstate : sess.state = some ConvState.addingSeasonNumber ∨
      sess.state = some ConvState.addingEpisodeNumber)
    (hbad : parseIntJS (jsTrim t) = none ∨
      ∃ n, parseIntJS (jsTrim t) = some n ∧ n ≤ 0) :
    (handleConversationFlow ok fid uid sess st t).store = st ∧
    (handleConversationFlow ok fid uid sess st t).session = sess ∧
    (handleConversationFlow ok fid uid sess st t).messages =
      [if sess.state = some ConvState.addingSeasonNumber then
        "⚠️ Please enter a valid season number!"
       else "⚠️ Please enter a valid episode number!"] := by
  rcases hstate with h | h <;> rcases hbad with hb | ⟨n, hb, hle⟩ <;>
    first
      | simp [handleConversationFlow, h, hb, hle]
      | simp [handleConversationFlow, h, hb]

/-- C6 witness: the inputs `0`, `-3` and `abc` in both number states. -/
theorem C6_nonpositive_number_rejected_witness :
    (parseIntJS (jsTrim "0") = some 0 ∧ parseIntJS (jsTrim "-3") = some (-3) ∧
      parseIntJS (jsTrim "abc") = none) ∧
    ((handleConversationFlow true "f1" 7
        (Session.mk (some ConvState.addingSeasonNumber) none) emptyStore "0").store =
        emptyStore ∧
      (handleConversationFlow true "f1" 7
        (Session.mk (some ConvState.addingSeasonNumber) none) emptyStore "0").session =
        Session.mk (some ConvState.addingSeasonNumber) none) ∧
    ((handleConversationFlow true "f1" 7
        (Session.mk (some ConvState.addingEpisodeNumber) none) emptyStore "-3").store =
        emptyStore ∧
      (handleConversationFlow true "f1" 7
        (Session.mk (some ConvState.addingEpisodeNumber) none) emptyStore "-3").session =
        Session.mk (some ConvState.addingEpisodeNumber) none) ∧
    (handleConversationFlow true "f1" 7
        (Session.mk (some ConvState.addingEpisodeNumber) none) emptyStore "abc").store =
      emptyStore :=
  ⟨⟨by decide, by decide, by decide⟩,
    ⟨(C6_nonpositive_number_rejected true "f1" 7 _ emptyStore "0" (Or.inl rfl)
        (Or.inr ⟨0, by decide, by decide⟩)).1,
      (C6_nonpositive_number_rejected true "f1" 7 _ emptyStore "0" (Or.inl rfl)
        (Or.inr ⟨0, by decide, by decide⟩)).2.1⟩,
    ⟨(C6_nonpositive_number_rejected true "f1" 7 _ emptyStore "-3" (Or.inr rfl)
        (Or.inr ⟨-3, by decide, by decide⟩)).1,
      (C6_nonpositive_number_rejected true "f1" 7 _ emptyStore "-3" (Or.inr rfl)
        (Or.inr ⟨-3, by decide, by decide⟩)).2.1⟩,
    (C6_nonpositive_number_rejected true "f1" 7 _ emptyStore "abc" (Or.inr rfl)
      (Or.inl (by decide))).1⟩

/-- C10: whenever `GET /api/series/:id` returns a 200 body, its `episodes`
array is sorted ascending by `seasonNumber` and, within a season, by
`episodeNumber` — the order imposed by the handler's
`sort({ seasonNumber: 1, episodeNumber: 1 })`. -/
theorem C10_series_episodes_sorted (st : Store) (sid : String) (d : SeriesDetail)
    (h : getSeriesById st sid = ApiSeriesResult.ok d) :
    d.episodes.Pairwise epLeProp := by
  unfold getSeriesById at h
  split at h
  · exact absurd h (by simp)
  · injection h with h2
    subst h2
    exact List.sorted_insertionSort epLeProp _

/-- C10 witness: a store whose episodes were inserted out of order is
served back sorted. -/
theorem C10_series_episodes_sorted_witness :
    getSeriesById
        (Store.mk [] [Series.mk "s1" "A" "t" 1 "series"]
          [Episode.mk "e1" "s1" 2 1 "a" "u" none 7, Episode.mk "e2" "s1" 1 2 "b" "u" none 7,
           Episode.mk "e3" "s1" 1 1 "c" "u" none 7])
        "s1" =
      ApiSeriesResult.ok
        (SeriesDetail.mk (Series.mk "s1" "A" "t" 1 "series")
          [Episode.mk "e3" "s1" 1 1 "c" "u" none 7, Episode.mk "e2" "s1" 1 2 "b" "u" none 7,
           Episode.mk "e1" "s1" 2 1 "a" "u" none 7]) ∧
    (SeriesDetail.mk (Series.mk "s1" "A" "t" 1 "series")
        [Episode.mk "e3" "s1" 1 1 "c" "u" none 7, Episode.mk "e2" "s1" 1 2 "b" "u" none 7,
         Episode.mk "e1" "s1" 2 1 "a" "u" none 7]).episodes.Pairwise epLeProp :=
  ⟨by decide,
    C10_series_episodes_sorted
      (Store.mk [] [Series.mk "s1" "A" "t" 1 "series"]
        [Episode.mk "e1" "s1" 2 1 "a" "u" none 7, Episode.mk "e2" "s1" 1 2 "b" "u" none 7,
         Episode.mk "e3" "s1" 1 1 "c" "u" none 7])
      "s1"
      (SeriesDetail.mk (Series.mk "s1" "A" "t" 1 "series")
        [Episode.mk "e3" "s1" 1 1 "c" "u" none 7, Episode.mk "e2" "s1" 1 2 "b" "u" none 7,
         Episode.mk "e1" "s1" 2 1 "a" "u" none 7])
      (by decide)⟩

/-! ### Lemmas on splitting and on the digit round trip (for C4) -/

/-- Unfolding equation of `splitCh` on a cons cell. -/
theorem splitCh_cons (sep c : Char) (cs : List Char) :
    splitCh sep (c :: cs) =
      if c == sep then [] :: splitCh sep cs
      else match splitCh sep cs with
        | [] => [[c]]
        | g :: gs => (c :: g) :: gs := rfl

/-- Splitting a list that starts with a separator-free block followed by a
separator yields that block as the first group. -/
theorem splitCh_sep_cons (sep : Char) :
    ∀ (xs ys : List Char), sep ∉ xs →
      splitCh sep (xs ++ sep :: ys) = xs :: splitCh sep ys
  | [], ys, _ => by simp [splitCh_cons]
  | c :: xs, ys, h => by
    have hc : ¬((c == sep) = true) := by
      simp only [beq_iff_eq]
      rintro rfl
      exact h (List.mem_cons_self _ _)
    rw [List.cons_append, splitCh_cons, if_neg hc,
      splitCh_sep_cons sep xs ys (fun hm => h (List.mem_cons_of_mem _ hm))]

/-- Splitting a separator-free list yields a single group. -/
theorem splitCh_no_sep (sep : Char) :
    ∀ xs : List Char, sep ∉ xs → splitCh sep xs = [xs]
  | [], _ => rfl
  | c :: xs, h => by
    have hc : ¬((c == sep) = true) := by
      simp only [beq_iff_eq]
      rintro rfl
      exact h (List.mem_cons_self _ _)
    rw [splitCh_cons, if_neg hc, splitCh_no_sep sep xs (fun hm => h (List.mem_cons_of_mem _ hm))]

/-- The fuel argument of `digitsRevF` is irrelevant above the value. -/
theorem digitsRevF_congr :
    ∀ (n f g : Nat), n ≤ f → n ≤ g → digitsRevF f n = digitsRevF g n := by
  intro n
  induction n using Nat.strong_induction_on with
  | _ n ih =>
    intro f g hf hg
    match n, f, g with
    | 0, f, g => cases f <;> cases g <;> rfl
    | n + 1, f + 1, g + 1 =>
      show ((n + 1) % 10) :: digitsRevF f ((n + 1) / 10) =
        ((n + 1) % 10) :: digitsRevF g ((n + 1) / 10)
      rw [ih ((n + 1) / 10) (by omega) f g (by omega) (by omega)]

/-- Recurrence of `digitsRev`. -/
theorem digitsRev_succ (n : Nat) :
    digitsRev (n + 1) = ((n + 1) % 10) :: digitsRev ((n + 1) / 10) := by
  show digitsRevF (n + 1) (n + 1) = ((n + 1) % 10) :: digitsRevF ((n + 1) / 10) ((n + 1) / 10)
  have h1 : digitsRevF (n + 1) (n + 1) = ((n + 1) % 10) :: digitsRevF n ((n + 1) / 10) := rfl
  rw [h1, digitsRevF_congr ((n + 1) / 10) n ((n + 1) / 10) (by omega) (by omega)]

theorem digitsRev_lt10 (n : Nat) : ∀ d ∈ digitsRev n, d < 10 := by
  induction n using Nat.strong_induction_on with
  | _ n ih =>
    match n with
    | 0 => intro d hd; simp [digitsRev, digitsRevF] at hd
    | n + 1 =>
      rw [digitsRev_succ]
      intro d hd
      rcases List.mem_cons.mp hd with rfl | hd
      · exact Nat.mod_lt _ (by omega)
      · exact ih ((n + 1) / 10) (by omega) d hd

theorem ofDigitsRev_digitsRev (n : Nat) : ofDigitsRev (digitsRev n) = n := by
  induction n using Nat.strong_induction_on with
  | _ n ih =>
    match n with
    | 0 => rfl
    | n + 1 =>
      rw [digitsRev_succ]
      unfold ofDigitsRev
      rw [ih ((n + 1) / 10) (by omega)]
      omega

theorem digitsRev_ne_nil (n : Nat) (h : 0 < n) : digitsRev n ≠ [] := by
  match n with
  | m + 1 => rw [digitsRev_succ]; exact List.cons_ne_nil _ _

theorem digitVal_digitChar : ∀ d : Nat, d < 10 → digitVal (Nat.digitChar d) = d := by decide

theorem isDigit_digitChar : ∀ d : Nat, d < 10 → (Nat.digitChar d).isDigit = true := by decide

/-- Folding the decimal-accumulation step over the reversed digit list
recovers the value. -/
theorem foldl_digits_reverse (ds : List Nat) :
    (∀ d ∈ ds, d < 10) → ∀ acc : Nat,
      List.foldl (fun a c => a * 10 + digitVal c) acc ((ds.reverse).map Nat.digitChar) =
        acc * 10 ^ ds.length + ofDigitsRev ds := by
  induction ds with
  | nil => intro _ acc; simp [ofDigitsRev]
  | cons d ds ih =>
    intro h acc
    have hd : d < 10 := h d (List.mem_cons_self _ _)
    rw [List.reverse_cons, List.map_append, List.foldl_append,
      ih (fun x hx => h x (List.mem_cons_of_mem _ hx)) acc]
    simp only [List.map_cons, List.map_nil, List.foldl_cons, List.foldl_nil]
    rw [digitVal_digitChar d hd]
    simp only [ofDigitsRev, List.length_cons]
    ring

theorem natToStr_toList (n : Nat) :
    (natToStr n).toList = if n = 0 then ['0'] else (digitsRev n).reverse.map Nat.digitChar := by
  unfold natToStr
  split
  · rename_i h
    simp only [beq_iff_eq] at h
    simp [h, String.toList]
  · rename_i h
    simp only [beq_iff_eq] at h
    simp [h, String.toList]

theorem natToStr_all_digits (n : Nat) : ∀ c ∈ (natToStr n).toList, c.isDigit = true := by
  rw [natToStr_toList]
  split
  · intro c hc
    simp at hc
    subst hc
    decide
  · intro c hc
    simp only [List.mem_map, List.mem_reverse] at hc
    obtain ⟨d, hd, rfl⟩ := hc
    exact isDigit_digitChar d (digitsRev_lt10 n d hd)

theorem parseDecPrefixJS_all_digits (cs : List Char) (hne : cs ≠ [])
    (hdig : ∀ c ∈ cs, c.isDigit = true) :
    parseDecPrefixJS cs = some (natOfDigits10 cs) := by
  unfold parseDecPrefixJS
  rw [List.takeWhile_eq_self_iff.mpr hdig]
  rw [if_neg (by simpa [List.isEmpty_iff] using hne)]

theorem isDigit_ne_x (c : Char) (h : c.isDigit = true) :
    ((c == 'x') = false ∧ (c == 'X') = false) := by
  constructor <;> {
    rw [beq_eq_false_iff_ne]
    rintro rfl
    simp at h
  }

theorem parseUnsignedJS_all_digits (cs : List Char) (hne : cs ≠ [])
    (hdig : ∀ c ∈ cs, c.isDigit = true) :
    parseUnsignedJS cs = some (natOfDigits10 cs) := by
  match cs with
  | [c] =>
    show parseDecPrefixJS [c] = _
    exact parseDecPrefixJS_all_digits [c] (by simp) hdig
  | c0 :: c1 :: rest =>
    show (if c0 == '0' && (c1 == 'x' || c1 == 'X') then parseHexPrefixJS rest
      else parseDecPrefixJS (c0 :: c1 :: rest)) = _
    have h1 : c1.isDigit = true := hdig c1 (by simp)
    rw [(isDigit_ne_x c1 h1).1, (isDigit_ne_x c1 h1).2]
    simp only [Bool.or_self, Bool.and_false, Bool.false_eq_true, if_false]
    exact parseDecPrefixJS_all_digits _ (by simp) hdig

theorem isDigit_not_whitespace (c : Char) (h : c.isDigit = true) :
    c.isWhitespace = false := by
  by_contra hw
  rw [Bool.not_eq_false] at hw
  unfold Char.isWhitespace at hw
  simp only [Bool.or_eq_true, decide_eq_true_eq] at hw
  rcases hw with ((rfl | rfl) | rfl) | rfl <;> exact absurd h (by decide)

theorem isDigit_ne_sign (c : Char) (h : c.isDigit = true) :
    ((c == '-') = false ∧ (c == '+') = false) := by
  constructor <;> {
    rw [beq_eq_false_iff_ne]
    rintro rfl
    simp at h
  }

theorem natOfDigits10_natToStr (n : Nat) :
    natOfDigits10 ((digitsRev n).reverse.map Nat.digitChar) = n := by
  unfold natOfDigits10
  rw [foldl_digits_reverse (digitsRev n) (digitsRev_lt10 n) 0, ofDigitsRev_digitsRev]
  simp

/-- JS `parseInt` is a left inverse of number-to-string conversion on
naturals. -/
theorem parseIntJS_natToStr (n : Nat) : parseIntJS (natToStr n) = some (n : Int) := by
  by_cases h0 : n = 0
  · subst h0; decide
  · have hlist := natToStr_toList n
    rw [if_neg h0] at hlist
    have hdig := natToStr_all_digits n
    have hne : (natToStr n).toList ≠ [] := by
      rw [hlist]
      simp only [ne_eq, List.map_eq_nil_iff, List.reverse_eq_nil_iff]
      exact digitsRev_ne_nil n (Nat.pos_of_ne_zero h0)
    obtain ⟨c, cs, hcons⟩ := List.exists_cons_of_ne_nil hne
    have hcdig : c.isDigit = true := hdig c (by rw [hcons]; exact List.mem_cons_self _ _)
    have hdrop : (natToStr n).toList.dropWhile (fun c => c.isWhitespace) = c :: cs := by
      rw [hcons, List.dropWhile_cons, isDigit_not_whitespace c hcdig]
      simp
    unfold parseIntJS
    rw [hdrop]
    simp only [(isDigit_ne_sign c hcdig).1, (isDigit_ne_sign c hcdig).2,
      Bool.false_eq_true, if_false]
    rw [← hcons, parseUnsignedJS_all_digits _ hne hdig]
    rw [hlist, natOfDigits10_natToStr n]
    simp

theorem parseIntJS_intToStr (n : Int) (h : 0 < n) : parseIntJS (intToStr n) = some n := by
  unfold intToStr
  rw [if_neg (by omega)]
  rw [parseIntJS_natToStr n.toNat]
  congr 1
  omega

theorem natToStr_no_underscore (n : Nat) : '_' ∉ (natToStr n).toList := by
  intro hmem
  have := natToStr_all_digits n '_' hmem
  simp at this

theorem intToStr_no_underscore (n : Int) (h : 0 < n) : '_' ∉ (intToStr n).toList := by
  unfold intToStr
  rw [if_neg (by omega)]
  exact natToStr_no_underscore n.toNat

theorem strMk_toList (s : String) : String.mk s.toList = s := rfl

/-- C4 counterexample: for the seriesId `"a_b"`, which contains the
separator character, the claim fails — the router splits on every
underscore and takes segments 2 and 3, so it recovers `"a"` and `NaN`
instead of `"a_b"` and `7`. -/
theorem C4_select_season_counterexample :
    parseSelectSeason (selectSeasonPayload "a_b" 7) = (some "a", none) ∧
    parseSelectSeason (selectSeasonPayload "a_b" 7) ≠ (some "a_b", some 7) := by
  decide

/-- C4 (amended): the `select_season_<seriesId>_<seasonNumber>` router
branch recovers the original seriesId and season number for every seriesId
that contains no underscore (as is the case for the hexadecimal Mongo
ObjectIds the code generates) and every positive season number; it splits
on every separator and takes segments 2 and 3, so underscore-carrying
seriesIds are not recovered. -/
theorem C4_select_season_roundtrip (sid : String) (hsid : '_' ∉ sid.toList)
    (n : Int) (hn : 0 < n) :
    parseSelectSeason (selectSeasonPayload sid n) = (some sid, some n) := by
  unfold parseSelectSeason selectSeasonPayload jsSplit
  have hlist : ("select_season_" ++ sid ++ "_" ++ intToStr n).toList =
      ['s', 'e', 'l', 'e', 'c', 't'] ++ '_' :: (['s', 'e', 'a', 's', 'o', 'n'] ++ '_' ::
        (sid.toList ++ '_' :: (intToStr n).toList)) := by
    show ("select_season_" ++ sid ++ "_" ++ intToStr n).data = _
    simp only [String.data_append]
    simp [String.toList, List.append_assoc]
  rw [hlist]
  rw [splitCh_sep_cons _ _ _ (by decide)]
  rw [splitCh_sep_cons _ _ _ (by decide)]
  rw [splitCh_sep_cons _ _ _ hsid]
  rw [splitCh_no_sep _ _ (intToStr_no_underscore n hn)]
  simp only [List.map_cons, List.map_nil, strMk_toList]
  simp only [List.getElem?_cons_succ, List.getElem?_cons_zero, Option.some_bind]
  rw [parseIntJS_intToStr n hn]

/-- C4 witness: a hexadecimal-style seriesId with no underscore round
trips. -/
theorem C4_select_season_roundtrip_witness :
    ('_' ∉ "64ab12ffc3".toList ∧ (0 : Int) < 7) ∧
    parseSelectSeason (selectSeasonPayload "64ab12ffc3" 7) = (some "64ab12ffc3", some 7) :=
  ⟨⟨by decide, by decide⟩, C4_select_season_roundtrip "64ab12ffc3" (by decide) 7 (by decide)⟩
